import Mathlib

/-!
Verification development for `src/rt_linux.rs` of the audio_thread_priority
crate (Linux / rtkit backend).

Modelling conventions.  External effects — the dbus broker round trips and
the libc calls — are modelled by environment records whose fields give the
outcome of each call, and by an explicit system state threaded through the
functions: the process's RLIMIT_RTTIME resource limit together with traces
of every setrlimit64 call (its argument) and every rtkit promotion request
(thread id, pid, priority) issued, in order.  Machine integers are Nat
(unsigned bit patterns) and Int (signed values); Rust `as` casts and u32
release-mode wrapping arithmetic are made explicit with `% 2 ^ 32`.
Field widths follow the x86-64 Linux ABI the crate targets:
`libc::pid_t` = i32, `kernel_pid_t` = `libc::c_long` = i64,
`libc::pthread_t` = u64, `libc::c_int` = i32, and `libc::sched_param`
holds a single `c_int` field.
-/

/-- `DBUS_SOCKET_TIMEOUT` constant of rt_linux.rs. -/
def DBUS_SOCKET_TIMEOUT : Nat := 10000

/-- `RT_PRIO_DEFAULT` constant of rt_linux.rs. -/
def RT_PRIO_DEFAULT : Nat := 10

/-- Rust `x as u32` applied to an i64 value: two's-complement truncation to
32 bits, yielding the unsigned bit pattern. -/
def i64_as_u32 (x : Int) : Nat := (x % 2 ^ 32).toNat

/-- Rust `x as u64` applied to an i64 value: two's-complement truncation to
64 bits, yielding the unsigned bit pattern. -/
def i64_as_u64 (x : Int) : Nat := (x % 2 ^ 64).toNat

/-- `libc::sched_param` on Linux: a single `sched_priority : c_int` field,
stored as its 32-bit pattern. -/
structure sched_param where
  sched_priority : Nat
  deriving DecidableEq

/-- The `RtPriorityThreadInfoInternal` record of rt_linux.rs (its fields as
unsigned bit patterns of the C types named in the comments). -/
structure RtPriorityThreadInfoInternal where
  /-- `libc::pid_t` (i32 bit pattern). -/
  pid : Nat
  /-- `kernel_pid_t` = `libc::c_long` (i64 bit pattern). -/
  thread_id : Nat
  /-- `libc::pthread_t` (u64). -/
  pthread_id : Nat
  /-- `libc::c_int` (i32 bit pattern). -/
  policy : Nat
  /-- `libc::sched_param`. -/
  param : sched_param
  deriving DecidableEq

/-- The `PartialEq` implementation of rt_linux.rs: only `thread_id` and
`pthread_id` take part in equality. -/
def RtPriorityThreadInfoInternal.eq (a b : RtPriorityThreadInfoInternal) : Bool :=
  a.thread_id == b.thread_id && a.pthread_id == b.pthread_id

/-- Little-endian bytes of a 32-bit pattern, as laid out in memory. -/
def leBytes4 (x : Nat) : List Nat :=
  [x % 256, x / 256 % 256, x / 256 ^ 2 % 256, x / 256 ^ 3 % 256]

/-- Little-endian bytes of a 64-bit pattern, as laid out in memory. -/
def leBytes8 (x : Nat) : List Nat :=
  [x % 256, x / 256 % 256, x / 256 ^ 2 % 256, x / 256 ^ 3 % 256,
   x / 256 ^ 4 % 256, x / 256 ^ 5 % 256, x / 256 ^ 6 % 256, x / 256 ^ 7 % 256]

/-- Value of four little-endian bytes. -/
def leDecode4 (b0 b1 b2 b3 : Nat) : Nat :=
  b0 + 256 * b1 + 256 ^ 2 * b2 + 256 ^ 3 * b3

/-- Value of eight little-endian bytes. -/
def leDecode8 (b0 b1 b2 b3 b4 b5 b6 b7 : Nat) : Nat :=
  b0 + 256 * b1 + 256 ^ 2 * b2 + 256 ^ 3 * b3 +
  256 ^ 4 * b4 + 256 ^ 5 * b5 + 256 ^ 6 * b6 + 256 ^ 7 * b7

/-- In-memory size of `RtPriorityThreadInfoInternal` under `repr(C)` on
x86-64 Linux: pid (4) + padding (4) + thread_id (8) + pthread_id (8) +
policy (4) + sched_param (4) = 32 bytes. -/
def rtPriorityThreadInfoSize : Nat := 32

/-- `RtPriorityThreadInfoInternal::serialize` of rt_linux.rs: the transmute
of the record to its in-memory byte array, under the x86-64 `repr(C)`
layout (offsets 0 pid, 8 thread_id, 16 pthread_id, 24 policy, 28 param;
bytes 4..8 are padding, whose content the transmute leaves unspecified and
which we model as zeros — deserialization never reads them). -/
def RtPriorityThreadInfoInternal.serialize (s : RtPriorityThreadInfoInternal) : List Nat :=
  leBytes4 s.pid ++ [0, 0, 0, 0] ++ leBytes8 s.thread_id ++ leBytes8 s.pthread_id ++
  leBytes4 s.policy ++ leBytes4 s.param.sched_priority

/-- `RtPriorityThreadInfoInternal::deserialize` of rt_linux.rs: the inverse
transmute of a 32-byte buffer back to the record.  The source input type
`[u8; 32]` makes any other length unrepresentable; the catch-all branch is
the arbitrary value for those impossible inputs. -/
def RtPriorityThreadInfoInternal.deserialize (b : List Nat) : RtPriorityThreadInfoInternal :=
  match b with
  | [p0, p1, p2, p3, _, _, _, _,
     t0, t1, t2, t3, t4, t5, t6, t7,
     q0, q1, q2, q3, q4, q5, q6, q7,
     c0, c1, c2, c3, r0, r1, r2, r3] =>
    ⟨leDecode4 p0 p1 p2 p3, leDecode8 t0 t1 t2 t3 t4 t5 t6 t7,
     leDecode8 q0 q1 q2 q3 q4 q5 q6 q7, leDecode4 c0 c1 c2 c3,
     ⟨leDecode4 r0 r1 r2 r3⟩⟩
  | _ => ⟨0, 0, 0, 0, ⟨0⟩⟩

/-- The `RtPriorityHandleInternal` record of rt_linux.rs. -/
structure RtPriorityHandleInternal where
  thread_info : RtPriorityThreadInfoInternal
  deriving DecidableEq

/-- The dbus `MessageItem` variants relevant to `item_as_i64`. -/
inductive MessageItem where
  | int32 : Int → MessageItem
  | int64 : Int → MessageItem
  | other : MessageItem
  deriving DecidableEq

/-- `item_as_i64` of rt_linux.rs: accept Int32 (sign-extended) or Int64
dbus values, reject anything else. -/
def item_as_i64 : MessageItem → Except String Int
  | MessageItem.int32 i => Except.ok i
  | MessageItem.int64 i => Except.ok i
  | MessageItem.other => Except.error "Property is not integer"

/-- `libc::rlimit64`: a soft/hard resource-limit pair (u64 each). -/
structure Rlimit64 where
  rlim_cur : Nat
  rlim_max : Nat
  deriving DecidableEq

/-- Observable system state threaded through `make_realtime`: the process's
current RLIMIT_RTTIME value, plus traces of every setrlimit64 call issued
(its argument, recorded whether or not the kernel accepts it) and of every
rtkit promotion request sent (thread id, pid, priority). -/
structure SysState where
  rlimit : Rlimit64
  setrlimitCalls : List Rlimit64
  rtkitCalls : List (Nat × Nat × Nat)
  deriving DecidableEq

/-- Environment for one `make_realtime` attempt: the outcome of each
external call it performs, in program order.  Kernel calls report the libc
return value (negative means failure, and a failed setrlimit64 leaves the
limit unchanged); dbus interactions report their reply. -/
structure BrokerEnv where
  /-- Whether `Connection::get_private(BusType::System)` succeeds. -/
  connectOk : Bool
  /-- Reply to the `MaxRealtimePriority` property read. -/
  getMaxRealtimePriority : Except String MessageItem
  /-- Reply to the `RTTimeUSecMax` property read. -/
  getRTTimeUSecMax : Except String MessageItem
  /-- Return value of `getrlimit64(RLIMIT_RTTIME, ..)`. -/
  getrlimitRet : Int
  /-- Return value of the limit-raising `setrlimit64(RLIMIT_RTTIME, ..)`. -/
  setrlimitRet : Int
  /-- Return value of the rollback `setrlimit64(RLIMIT_RTTIME, ..)`
  (the source discards it). -/
  setrlimitRollbackRet : Int
  /-- Reply to the rtkit `MakeThreadRealtime` / `MakeThreadRealtimeWithPID`
  method call. -/
  rtkitReply : Except String Unit

/-- `rtkit_set_realtime` of rt_linux.rs: build the promotion method call
(`MakeThreadRealtime` when the promoting process is the target process,
`MakeThreadRealtimeWithPID` otherwise) and send it, blocking on the reply.
The round trip itself is external; its reply comes from the environment
and does not depend on which of the two message shapes was sent. -/
def rtkit_set_realtime (env : BrokerEnv) (thread : Nat) (pid : Nat) (prio : Nat) :
    Except String Unit :=
  env.rtkitReply

/-- `make_realtime` of rt_linux.rs (lines 89-132), with the external calls
resolved against `env` and the process state threaded explicitly. -/
def make_realtime (env : BrokerEnv) (st : SysState) (tid : Nat) (pid : Nat)
    (requested_slice_us : Nat) (prio : Nat) : Except String Nat × SysState :=
  if env.connectOk then
    match env.getMaxRealtimePriority.bind item_as_i64 with
    | Except.error e => (Except.error e, st)
    | Except.ok max_prio =>
      if max_prio < 0 then (Except.error "invalid negative MaxRealtimePriority", st)
      else
        let prio := min prio (i64_as_u32 max_prio)
        match env.getRTTimeUSecMax.bind item_as_i64 with
        | Except.error e => (Except.error e, st)
        | Except.ok max_rttime =>
          if max_rttime < 0 then (Except.error "invalid negative RTTimeUSecMax", st)
          else
            let rttime_request := min requested_slice_us (i64_as_u64 max_rttime)
            let new_limit : Rlimit64 := ⟨rttime_request, i64_as_u64 max_rttime⟩
            if env.getrlimitRet < 0 then (Except.error "getrlimit failed", st)
            else
              let old_limit := st.rlimit
              let st1 : SysState :=
                { st with setrlimitCalls := st.setrlimitCalls ++ [new_limit] }
              if env.setrlimitRet < 0 then (Except.error "setrlimit failed", st1)
              else
                let st2 : SysState := { st1 with rlimit := new_limit }
                let st3 : SysState :=
                  { st2 with rtkitCalls := st2.rtkitCalls ++ [(tid, pid, prio)] }
                match rtkit_set_realtime env tid pid prio with
                | Except.error _ =>
                  let st4 : SysState :=
                    { st3 with
                      setrlimitCalls := st3.setrlimitCalls ++ [old_limit],
                      rlimit :=
                        if env.setrlimitRollbackRet < 0 then st3.rlimit else old_limit }
                  (Except.error "could not set process as real-time.", st4)
                | Except.ok _ => (Except.ok prio, st3)
  else (Except.error "dbus connection failed", st)

/-- Environment for `get_current_thread_info_internal`: what the kernel
reports for the calling thread. -/
structure CaptureEnv where
  /-- `syscall(SYS_gettid)` (i64 bit pattern). -/
  sys_gettid : Nat
  /-- `pthread_self()`. -/
  pthread_self : Nat
  /-- `getpid()` (i32 bit pattern). -/
  getpid : Nat
  /-- Return value of `pthread_getschedparam`. -/
  getschedparamRet : Int
  /-- Policy filled in by a successful `pthread_getschedparam`. -/
  policy : Nat
  /-- Parameters filled in by a successful `pthread_getschedparam`. -/
  param : sched_param

/-- `get_current_thread_info_internal` of rt_linux.rs. -/
def get_current_thread_info_internal (env : CaptureEnv) :
    Except Unit RtPriorityThreadInfoInternal :=
  if env.getschedparamRet < 0 then Except.error ()
  else Except.ok ⟨env.getpid, env.sys_gettid, env.pthread_self, env.policy, env.param⟩

/-- The `buffer_frames` binding of `promote_thread_to_real_time_internal`
(rt_linux.rs lines 198-203): substitute a 50 ms slice worth of frames when
the caller passes 0 frames. -/
def buffer_frames_value (audio_buffer_frames : Nat) (audio_samplerate_hz : Nat) : Nat :=
  if audio_buffer_frames > 0 then audio_buffer_frames
  else audio_samplerate_hz / 20

/-- The `budget_us` binding of `promote_thread_to_real_time_internal`
(rt_linux.rs line 204): a u32 multiplication (wrapping at `2 ^ 32` in
release builds) followed by u32 division, then widened to u64.  Callers
guard the `audio_samplerate_hz = 0` division-by-zero panic separately. -/
def budget_us (audio_buffer_frames : Nat) (audio_samplerate_hz : Nat) : Nat :=
  buffer_frames_value audio_buffer_frames audio_samplerate_hz * 1000000 % 2 ^ 32 /
    audio_samplerate_hz

/-- Outcome of a promotion entry point: a handle, the `Err(())` result, or
a Rust panic (the unguarded division by zero when the sample rate is 0). -/
inductive PromoteResult where
  | ok : RtPriorityHandleInternal → PromoteResult
  | err : PromoteResult
  | panicked : PromoteResult
  deriving DecidableEq

/-- `promote_thread_to_real_time_internal` of rt_linux.rs (lines 192-212). -/
def promote_thread_to_real_time_internal (env : BrokerEnv) (st : SysState)
    (thread_info : RtPriorityThreadInfoInternal)
    (audio_buffer_frames : Nat) (audio_samplerate_hz : Nat) :
    PromoteResult × SysState :=
  if audio_samplerate_hz = 0 then (PromoteResult.panicked, st)
  else
    match make_realtime env st thread_info.thread_id thread_info.pid
        (budget_us audio_buffer_frames audio_samplerate_hz) RT_PRIO_DEFAULT with
    | (Except.error _, st2) => (PromoteResult.err, st2)
    | (Except.ok _, st2) => (PromoteResult.ok ⟨thread_info⟩, st2)

/-- `promote_current_thread_to_real_time_internal` of rt_linux.rs
(lines 134-139). -/
def promote_current_thread_to_real_time_internal (cenv : CaptureEnv) (env : BrokerEnv)
    (st : SysState) (audio_buffer_frames : Nat) (audio_samplerate_hz : Nat) :
    PromoteResult × SysState :=
  match get_current_thread_info_internal cenv with
  | Except.error _ => (PromoteResult.err, st)
  | Except.ok thread_info =>
    promote_thread_to_real_time_internal env st thread_info audio_buffer_frames
      audio_samplerate_hz

/-- One `pthread_setschedparam` invocation: target handle, policy,
parameters. -/
structure SchedParamCall where
  target : Nat
  policy : Nat
  param : sched_param
  deriving DecidableEq

/-- Environment for a demotion call. -/
structure DemoteEnv where
  /-- `pthread_self()` of the calling thread. -/
  pthread_self : Nat
  /-- Return value of `pthread_setschedparam`. -/
  setschedparamRet : Int

/-- Outcome of a demotion entry point: success, the `Err(())` result, or
the `assert!` panic. -/
inductive DemoteOutcome where
  | ok : DemoteOutcome
  | failed : DemoteOutcome
  | panicked : DemoteOutcome
  deriving DecidableEq

/-- `demote_current_thread_from_real_time_internal` of rt_linux.rs
(lines 141-152): asserts that the caller is the captured thread, then
restores the saved policy and parameters.  The second component records
the `pthread_setschedparam` calls issued. -/
def demote_current_thread_from_real_time_internal (env : DemoteEnv)
    (rt_priority_handle : RtPriorityHandleInternal) :
    DemoteOutcome × List SchedParamCall :=
  if env.pthread_self ≠ rt_priority_handle.thread_info.pthread_id then
    (DemoteOutcome.panicked, [])
  else
    let call : SchedParamCall :=
      ⟨rt_priority_handle.thread_info.pthread_id,
       rt_priority_handle.thread_info.policy,
       rt_priority_handle.thread_info.param⟩
    if env.setschedparamRet < 0 then (DemoteOutcome.failed, [call])
    else (DemoteOutcome.ok, [call])

/-- `demote_thread_from_real_time_internal` of rt_linux.rs (lines 154-164):
restores the saved policy and parameters with no identity check (the
source comment advertises it as callable by sandboxed code). -/
def demote_thread_from_real_time_internal (env : DemoteEnv)
    (rt_priority_handle : RtPriorityHandleInternal) :
    DemoteOutcome × List SchedParamCall :=
  let call : SchedParamCall :=
    ⟨rt_priority_handle.thread_info.pthread_id,
     rt_priority_handle.thread_info.policy,
     rt_priority_handle.thread_info.param⟩
  if env.setschedparamRet < 0 then (DemoteOutcome.failed, [call])
  else (DemoteOutcome.ok, [call])

/-! ### Helper lemmas: the execution paths of `make_realtime` -/

theorem i64_as_u32_of_nonneg (x : Int) (h : 0 ≤ x) :
    i64_as_u32 x = x.toNat % 2 ^ 32 := by
  unfold i64_as_u32
  rw [show (2 : Int) ^ 32 = 4294967296 from by norm_num]
  omega

theorem i64_as_u64_of_small (x : Int) (h0 : 0 ≤ x) (h : x < 2 ^ 64) :
    i64_as_u64 x = x.toNat := by
  unfold i64_as_u64
  rw [show (2 : Int) ^ 64 = 18446744073709551616 from by norm_num]
  omega

theorem make_realtime_maxprio_negative (env : BrokerEnv) (st : SysState)
    (tid pid slice prio : Nat) (M : Int)
    (hc : env.connectOk = true)
    (hM : env.getMaxRealtimePriority.bind item_as_i64 = Except.ok M)
    (hneg : M < 0) :
    make_realtime env st tid pid slice prio =
      (Except.error "invalid negative MaxRealtimePriority", st) := by
  simp [make_realtime, hc, hM, hneg]

theorem make_realtime_rttime_error (env : BrokerEnv) (st : SysState)
    (tid pid slice prio : Nat) (M : Int) (e : String)
    (hc : env.connectOk = true)
    (hM : env.getMaxRealtimePriority.bind item_as_i64 = Except.ok M)
    (hM0 : 0 ≤ M)
    (hB : env.getRTTimeUSecMax.bind item_as_i64 = Except.error e) :
    make_realtime env st tid pid slice prio = (Except.error e, st) := by
  simp [make_realtime, hc, hM, hB, not_lt.mpr hM0]

theorem make_realtime_rttime_negative (env : BrokerEnv) (st : SysState)
    (tid pid slice prio : Nat) (M B : Int)
    (hc : env.connectOk = true)
    (hM : env.getMaxRealtimePriority.bind item_as_i64 = Except.ok M)
    (hM0 : 0 ≤ M)
    (hB : env.getRTTimeUSecMax.bind item_as_i64 = Except.ok B)
    (hneg : B < 0) :
    make_realtime env st tid pid slice prio =
      (Except.error "invalid negative RTTimeUSecMax", st) := by
  simp [make_realtime, hc, hM, hB, not_lt.mpr hM0, hneg]

theorem make_realtime_getrlimit_fail (env : BrokerEnv) (st : SysState)
    (tid pid slice prio : Nat) (M B : Int)
    (hc : env.connectOk = true)
    (hM : env.getMaxRealtimePriority.bind item_as_i64 = Except.ok M)
    (hM0 : 0 ≤ M)
    (hB : env.getRTTimeUSecMax.bind item_as_i64 = Except.ok B)
    (hB0 : 0 ≤ B)
    (hgl : env.getrlimitRet < 0) :
    make_realtime env st tid pid slice prio = (Except.error "getrlimit failed", st) := by
  simp [make_realtime, hc, hM, hB, not_lt.mpr hM0, not_lt.mpr hB0, hgl]

theorem make_realtime_setrlimit_fail (env : BrokerEnv) (st : SysState)
    (tid pid slice prio : Nat) (M B : Int)
    (hc : env.connectOk = true)
    (hM : env.getMaxRealtimePriority.bind item_as_i64 = Except.ok M)
    (hM0 : 0 ≤ M)
    (hB : env.getRTTimeUSecMax.bind item_as_i64 = Except.ok B)
    (hB0 : 0 ≤ B)
    (hgl : 0 ≤ env.getrlimitRet)
    (hsl : env.setrlimitRet < 0) :
    make_realtime env st tid pid slice prio =
      (Except.error "setrlimit failed",
       { st with setrlimitCalls :=
           st.setrlimitCalls ++ [⟨min slice (i64_as_u64 B), i64_as_u64 B⟩] }) := by
  simp [make_realtime, hc, hM, hB, not_lt.mpr hM0, not_lt.mpr hB0, not_lt.mpr hgl, hsl]

theorem make_realtime_denied (env : BrokerEnv) (st : SysState)
    (tid pid slice prio : Nat) (M B : Int) (e : String)
    (hc : env.connectOk = true)
    (hM : env.getMaxRealtimePriority.bind item_as_i64 = Except.ok M)
    (hM0 : 0 ≤ M)
    (hB : env.getRTTimeUSecMax.bind item_as_i64 = Except.ok B)
    (hB0 : 0 ≤ B)
    (hgl : 0 ≤ env.getrlimitRet)
    (hsl : 0 ≤ env.setrlimitRet)
    (hr : env.rtkitReply = Except.error e) :
    make_realtime env st tid pid slice prio =
      (Except.error "could not set process as real-time.",
       { rlimit :=
           if env.setrlimitRollbackRet < 0 then
             ⟨min slice (i64_as_u64 B), i64_as_u64 B⟩
           else st.rlimit,
         setrlimitCalls :=
           st.setrlimitCalls ++ [⟨min slice (i64_as_u64 B), i64_as_u64 B⟩, st.rlimit],
         rtkitCalls :=
           st.rtkitCalls ++ [(tid, pid, min prio (i64_as_u32 M))] }) := by
  simp [make_realtime, rtkit_set_realtime, hc, hM, hB, not_lt.mpr hM0, not_lt.mpr hB0,
    not_lt.mpr hgl, not_lt.mpr hsl, hr]

theorem make_realtime_success (env : BrokerEnv) (st : SysState)
    (tid pid slice prio : Nat) (M B : Int)
    (hc : env.connectOk = true)
    (hM : env.getMaxRealtimePriority.bind item_as_i64 = Except.ok M)
    (hM0 : 0 ≤ M)
    (hB : env.getRTTimeUSecMax.bind item_as_i64 = Except.ok B)
    (hB0 : 0 ≤ B)
    (hgl : 0 ≤ env.getrlimitRet)
    (hsl : 0 ≤ env.setrlimitRet)
    (hr : env.rtkitReply = Except.ok ()) :
    make_realtime env st tid pid slice prio =
      (Except.ok (min prio (i64_as_u32 M)),
       { rlimit := ⟨min slice (i64_as_u64 B), i64_as_u64 B⟩,
         setrlimitCalls :=
           st.setrlimitCalls ++ [⟨min slice (i64_as_u64 B), i64_as_u64 B⟩],
         rtkitCalls :=
           st.rtkitCalls ++ [(tid, pid, min prio (i64_as_u32 M))] }) := by
  simp [make_realtime, rtkit_set_realtime, hc, hM, hB, not_lt.mpr hM0, not_lt.mpr hB0,
    not_lt.mpr hgl, not_lt.mpr hsl, hr]

/-! ### Serialization round trip -/

theorem leDecode4_leBytes4 (x : Nat) (h : x < 2 ^ 32) :
    leDecode4 (x % 256) (x / 256 % 256) (x / 256 ^ 2 % 256) (x / 256 ^ 3 % 256) = x := by
  unfold leDecode4
  omega

theorem leDecode8_leBytes8 (x : Nat) (h : x < 2 ^ 64) :
    leDecode8 (x % 256) (x / 256 % 256) (x / 256 ^ 2 % 256) (x / 256 ^ 3 % 256)
      (x / 256 ^ 4 % 256) (x / 256 ^ 5 % 256) (x / 256 ^ 6 % 256) (x / 256 ^ 7 % 256)
      = x := by
  unfold leDecode8
  omega

theorem serialize_length (s : RtPriorityThreadInfoInternal) :
    s.serialize.length = rtPriorityThreadInfoSize := by
  simp [RtPriorityThreadInfoInternal.serialize, leBytes4, leBytes8,
    rtPriorityThreadInfoSize]

theorem deserialize_serialize (s : RtPriorityThreadInfoInternal)
    (h1 : s.pid < 2 ^ 32) (h2 : s.thread_id < 2 ^ 64) (h3 : s.pthread_id < 2 ^ 64)
    (h4 : s.policy < 2 ^ 32) (h5 : s.param.sched_priority < 2 ^ 32) :
    RtPriorityThreadInfoInternal.deserialize s.serialize = s := by
  obtain ⟨p, t, q, c, ⟨r⟩⟩ := s
  simp only [RtPriorityThreadInfoInternal.serialize, leBytes4, leBytes8,
    List.cons_append, List.nil_append] at *
  simp only [RtPriorityThreadInfoInternal.deserialize,
    RtPriorityThreadInfoInternal.mk.injEq, sched_param.mk.injEq]
  exact ⟨leDecode4_leBytes4 p h1, leDecode8_leBytes8 t h2, leDecode8_leBytes8 q h3,
    leDecode4_leBytes4 c h4, leDecode4_leBytes4 r h5⟩

/-! ### Concrete states and environments used by witnesses and
counterexamples -/

/-- A concrete starting state: soft limit 0, hard limit 1000000, no calls
issued yet. -/
def st0 : SysState := ⟨⟨0, 1000000⟩, [], []⟩

/-- Broker grants everything: maximum priority 10, maximum budget 200000 us,
kernel calls succeed, promotion accepted. -/
def benvGranted : BrokerEnv :=
  { connectOk := true,
    getMaxRealtimePriority := Except.ok (MessageItem.int64 10),
    getRTTimeUSecMax := Except.ok (MessageItem.int64 200000),
    getrlimitRet := 0,
    setrlimitRet := 0,
    setrlimitRollbackRet := 0,
    rtkitReply := Except.ok () }

/-- Like `benvGranted` but the broker reports `MaxRealtimePriority` of
`2 ^ 32` (representable in the i64 property). -/
def benvHugeMax : BrokerEnv :=
  { benvGranted with
    getMaxRealtimePriority := Except.ok (MessageItem.int64 4294967296) }

/-- Like `benvGranted` but the promotion method call is refused; the
rollback setrlimit64 succeeds. -/
def benvDenied : BrokerEnv :=
  { benvGranted with rtkitReply := Except.error "denied" }

/-- Like `benvDenied` but the rollback setrlimit64 also fails. -/
def benvDeniedNoRollback : BrokerEnv :=
  { benvDenied with setrlimitRollbackRet := -1 }

/-- Like `benvGranted` but the broker reports a negative
`MaxRealtimePriority`. -/
def benvNegMax : BrokerEnv :=
  { benvGranted with
    getMaxRealtimePriority := Except.ok (MessageItem.int32 (-3)) }

/-- Like `benvGranted` but the limit-raising setrlimit64 is rejected. -/
def benvSetrlimitFail : BrokerEnv :=
  { benvGranted with setrlimitRet := -1 }

/-! ### Claims -/

/-- C6: for every snapshot whose fields fit their machine widths,
deserializing its serialization yields the snapshot back — byte-for-byte
field recovery, hence also equality under the snapshot's own identity
relation — and the serialized form is a fixed-size byte sequence whose
length is the in-memory size of the record (32 bytes on the target
platform), with the identity fields preserved exactly. -/
theorem claim_C6 (s : RtPriorityThreadInfoInternal)
    (h1 : s.pid < 2 ^ 32) (h2 : s.thread_id < 2 ^ 64) (h3 : s.pthread_id < 2 ^ 64)
    (h4 : s.policy < 2 ^ 32) (h5 : s.param.sched_priority < 2 ^ 32) :
    RtPriorityThreadInfoInternal.deserialize s.serialize = s ∧
    RtPriorityThreadInfoInternal.eq
      (RtPriorityThreadInfoInternal.deserialize s.serialize) s = true ∧
    s.serialize.length = rtPriorityThreadInfoSize ∧
    (RtPriorityThreadInfoInternal.deserialize s.serialize).thread_id = s.thread_id ∧
    (RtPriorityThreadInfoInternal.deserialize s.serialize).pthread_id = s.pthread_id := by
  have h := deserialize_serialize s h1 h2 h3 h4 h5
  refine ⟨h, ?_, serialize_length s, by rw [h], by rw [h]⟩
  rw [h]
  simp [RtPriorityThreadInfoInternal.eq]

/-- Witness for C6 at a concrete snapshot. -/
theorem claim_C6_witness :
    RtPriorityThreadInfoInternal.deserialize
      (RtPriorityThreadInfoInternal.serialize ⟨1, 2, 3, 4, ⟨5⟩⟩) = ⟨1, 2, 3, 4, ⟨5⟩⟩ :=
  (claim_C6 ⟨1, 2, 3, 4, ⟨5⟩⟩ (by norm_num) (by norm_num) (by norm_num) (by norm_num)
    (by norm_num)).1

/-- C7: two snapshots are equal exactly when their system-wide thread
identifiers and process-local thread handles both match; the pid, policy
and parameter fields never influence the verdict. -/
theorem claim_C7 : ∀ a b : RtPriorityThreadInfoInternal,
    (RtPriorityThreadInfoInternal.eq a b = true ↔
      (a.thread_id = b.thread_id ∧ a.pthread_id = b.pthread_id)) ∧
    (∀ p1 c1 r1 p2 c2 r2,
      RtPriorityThreadInfoInternal.eq
        { a with pid := p1, policy := c1, param := r1 }
        { b with pid := p2, policy := c2, param := r2 } =
      RtPriorityThreadInfoInternal.eq a b) := by
  intro a b
  constructor
  · simp [RtPriorityThreadInfoInternal.eq]
  · intro p1 c1 r1 p2 c2 r2
    simp [RtPriorityThreadInfoInternal.eq]

/-- C4 (amended): for positive buffer frames and sample rate the computed
budget is `buffer_frames * 1_000_000` taken modulo `2 ^ 32` (the u32
multiplication wraps in release builds) divided by the sample rate; it
equals the exact `buffer_frames * 1_000_000 / sample_rate` truncating
formula precisely when the product stays below `2 ^ 32`, and this budget is
the slice passed on to `make_realtime` (the negotiator). -/
theorem claim_C4 (bf sr : Nat) (hbf : 0 < bf) (hsr : 0 < sr) :
    budget_us bf sr = bf * 1000000 % 2 ^ 32 / sr ∧
    (bf * 1000000 < 2 ^ 32 → budget_us bf sr = bf * 1000000 / sr) ∧
    ∀ env st ti,
      promote_thread_to_real_time_internal env st ti bf sr =
        (match make_realtime env st ti.thread_id ti.pid (budget_us bf sr)
            RT_PRIO_DEFAULT with
         | (Except.error _, st2) => (PromoteResult.err, st2)
         | (Except.ok _, st2) => (PromoteResult.ok ⟨ti⟩, st2)) := by
  have hb : budget_us bf sr = bf * 1000000 % 2 ^ 32 / sr := by
    simp [budget_us, buffer_frames_value, hbf]
  refine ⟨hb, fun hov => ?_, fun env st ti => ?_⟩
  · rw [hb, Nat.mod_eq_of_lt hov]
  · unfold promote_thread_to_real_time_internal
    rw [if_neg (by omega : ¬ sr = 0)]

/-- Counterexample for C4 as stated: at 5000 buffer frames and sample rate
44100 the u32 product wraps, so the computed budget is 15987 us where the
claimed exact formula gives 113378 us. -/
theorem claim_C4_counterexample :
    budget_us 5000 44100 = 15987 ∧ 5000 * 1000000 / 44100 = 113378 ∧
    (15987 : Nat) ≠ 113378 := by
  refine ⟨by decide, by norm_num, by norm_num⟩

/-- Witness for C4 at 128 frames, 44100 Hz. -/
theorem claim_C4_witness :
    budget_us 128 44100 = 128 * 1000000 % 2 ^ 32 / 44100 :=
  (claim_C4 128 44100 (by norm_num) (by norm_num)).1

/-- C5 (amended): for zero buffer frames the default `sample_rate / 20` is
substituted before the budget formula, so the budget is
`(sample_rate / 20) * 1_000_000` modulo `2 ^ 32` divided by the sample
rate; it equals the claimed `(sample_rate / 20) * 1_000_000 / sample_rate`
exactly when the product stays below `2 ^ 32`. -/
theorem claim_C5 (sr : Nat) (hsr : 0 < sr) :
    budget_us 0 sr = sr / 20 * 1000000 % 2 ^ 32 / sr ∧
    (sr / 20 * 1000000 < 2 ^ 32 → budget_us 0 sr = sr / 20 * 1000000 / sr) := by
  have hb : budget_us 0 sr = sr / 20 * 1000000 % 2 ^ 32 / sr := by
    simp [budget_us, buffer_frames_value]
  exact ⟨hb, fun hov => by rw [hb, Nat.mod_eq_of_lt hov]⟩

/-- Counterexample for C5 as stated: at sample rate 96000 the substituted
4800 frames make the u32 product wrap, so the computed budget is 5260 us
where the claimed formula gives 50000 us. -/
theorem claim_C5_counterexample :
    budget_us 0 96000 = 5260 ∧ 96000 / 20 * 1000000 / 96000 = 50000 ∧
    (5260 : Nat) ≠ 50000 := by
  refine ⟨by decide, by norm_num, by norm_num⟩

/-- Witness for C5 at 44100 Hz. -/
theorem claim_C5_witness :
    budget_us 0 44100 = 44100 / 20 * 1000000 % 2 ^ 32 / 44100 :=
  (claim_C5 44100 (by norm_num)).1

/-- C3: when the broker reports a negative maximum real-time priority or a
negative maximum real-time CPU-time budget, `make_realtime` fails with the
corresponding broker-query error and the system state — including the
resource limit and the (empty so far) setrlimit call trace — is returned
unchanged: no setrlimit call occurs before the failure. -/
theorem claim_C3 (env : BrokerEnv) (st : SysState) (tid pid slice prio : Nat)
    (hc : env.connectOk = true) :
    (∀ M, env.getMaxRealtimePriority.bind item_as_i64 = Except.ok M → M < 0 →
      make_realtime env st tid pid slice prio =
        (Except.error "invalid negative MaxRealtimePriority", st)) ∧
    (∀ M B, env.getMaxRealtimePriority.bind item_as_i64 = Except.ok M → 0 ≤ M →
      env.getRTTimeUSecMax.bind item_as_i64 = Except.ok B → B < 0 →
      make_realtime env st tid pid slice prio =
        (Except.error "invalid negative RTTimeUSecMax", st)) :=
  ⟨fun M hM hneg => make_realtime_maxprio_negative env st tid pid slice prio M hc hM hneg,
   fun M B hM hM0 hB hneg =>
     make_realtime_rttime_negative env st tid pid slice prio M B hc hM hM0 hB hneg⟩

/-- Witness for C3: a broker reporting `MaxRealtimePriority` of -3. -/
theorem claim_C3_witness :
    make_realtime benvNegMax st0 1 2 100 99 =
      (Except.error "invalid negative MaxRealtimePriority", st0) :=
  (claim_C3 benvNegMax st0 1 2 100 99 rfl).1 (-3) rfl (by norm_num)

/-- C2 (amended): on success `make_realtime` grants, and actually requests
from the broker, `min(requested, M mod 2 ^ 32)` — the i64 maximum `M` is
first truncated by the Rust `as u32` cast.  The granted value never
exceeds `M`, and whenever `M < 2 ^ 32` (every realistic broker value) it
is exactly the claimed `min(requested, M)` silent clamp. -/
theorem claim_C2 (env : BrokerEnv) (st : SysState) (tid pid slice prio : Nat) (M : Int)
    (hc : env.connectOk = true)
    (hM : env.getMaxRealtimePriority.bind item_as_i64 = Except.ok M)
    (hM0 : 0 ≤ M) :
    ∀ g, (make_realtime env st tid pid slice prio).1 = Except.ok g →
      g = min prio (M.toNat % 2 ^ 32) ∧ g ≤ M.toNat ∧
      (M < 2 ^ 32 → g = min prio M.toNat) ∧
      (make_realtime env st tid pid slice prio).2.rtkitCalls =
        st.rtkitCalls ++ [(tid, pid, g)] := by
  intro g hg
  cases hB : env.getRTTimeUSecMax.bind item_as_i64 with
  | error e =>
    rw [make_realtime_rttime_error env st tid pid slice prio M e hc hM hM0 hB] at hg
    exact absurd hg (by simp)
  | ok B =>
    by_cases hBneg : B < 0
    · rw [make_realtime_rttime_negative env st tid pid slice prio M B hc hM hM0 hB
        hBneg] at hg
      exact absurd hg (by simp)
    · push_neg at hBneg
      by_cases hgl : env.getrlimitRet < 0
      · rw [make_realtime_getrlimit_fail env st tid pid slice prio M B hc hM hM0 hB
          hBneg hgl] at hg
        exact absurd hg (by simp)
      · push_neg at hgl
        by_cases hsl : env.setrlimitRet < 0
        · rw [make_realtime_setrlimit_fail env st tid pid slice prio M B hc hM hM0 hB
            hBneg hgl hsl] at hg
          exact absurd hg (by simp)
        · push_neg at hsl
          cases hr : env.rtkitReply with
          | error e =>
            rw [make_realtime_denied env st tid pid slice prio M B e hc hM hM0 hB hBneg
              hgl hsl hr] at hg
            exact absurd hg (by simp)
          | ok u =>
            cases u
            have hmr := make_realtime_success env st tid pid slice prio M B hc hM hM0 hB
              hBneg hgl hsl hr
            rw [hmr] at hg
            have hval : min prio (i64_as_u32 M) = g := by simpa using hg
            subst hval
            rw [hmr]
            refine ⟨?_, ?_, ?_, rfl⟩
            · rw [i64_as_u32_of_nonneg M hM0]
            · rw [i64_as_u32_of_nonneg M hM0]
              omega
            · intro hlt
              rw [show (2 : Int) ^ 32 = 4294967296 from by norm_num] at hlt
              rw [i64_as_u32_of_nonneg M hM0]
              omega

/-- Witness for C2: requested priority 99 against broker maximum 10 grants
exactly 10, and 10 is the priority sent in the promotion request. -/
theorem claim_C2_witness :
    (10 : Nat) = min 99 ((10 : Int).toNat % 2 ^ 32) ∧ (10 : Nat) ≤ (10 : Int).toNat ∧
    ((10 : Int) < 2 ^ 32 → (10 : Nat) = min 99 (10 : Int).toNat) ∧
    (make_realtime benvGranted st0 1 2 100 99).2.rtkitCalls =
      st0.rtkitCalls ++ [(1, 2, 10)] :=
  claim_C2 benvGranted st0 1 2 100 99 10 rfl rfl (by norm_num) 10 rfl

/-- Counterexample for C2 as stated: with the broker reporting the i64
maximum `M = 2 ^ 32`, the `as u32` cast truncates it to 0, so a request
for priority 99 is granted 0, not `min(99, M) = 99`. -/
theorem claim_C2_counterexample :
    (make_realtime benvHugeMax st0 1 2 100 99).1 = Except.ok 0 ∧
    min 99 ((4294967296 : Int).toNat) = 99 ∧ (0 : Nat) ≠ 99 :=
  ⟨rfl, by norm_num, by norm_num⟩

/-- C8: whenever `make_realtime` reaches the limit-setting step (broker
maxima non-negative, getrlimit succeeded), the setrlimit64 call it issues
carries soft limit `min(requested_slice_us, B)` and hard limit `B`, the
broker-advertised maximum budget; and if the kernel rejects that call the
function fails with the limit-set error. -/
theorem claim_C8 (env : BrokerEnv) (st : SysState) (tid pid slice prio : Nat)
    (M B : Int)
    (hc : env.connectOk = true)
    (hM : env.getMaxRealtimePriority.bind item_as_i64 = Except.ok M) (hM0 : 0 ≤ M)
    (hB : env.getRTTimeUSecMax.bind item_as_i64 = Except.ok B) (hB0 : 0 ≤ B)
    (hB64 : B < 2 ^ 64)
    (hgl : 0 ≤ env.getrlimitRet) :
    (∃ rest, (make_realtime env st tid pid slice prio).2.setrlimitCalls =
        st.setrlimitCalls ++ ⟨min slice B.toNat, B.toNat⟩ :: rest) ∧
    (env.setrlimitRet < 0 →
      (make_realtime env st tid pid slice prio).1 = Except.error "setrlimit failed") := by
  have hu : i64_as_u64 B = B.toNat := i64_as_u64_of_small B hB0 hB64
  by_cases hsl : env.setrlimitRet < 0
  · rw [make_realtime_setrlimit_fail env st tid pid slice prio M B hc hM hM0 hB hB0
      hgl hsl]
    exact ⟨⟨[], by simp [hu]⟩, fun _ => rfl⟩
  · push_neg at hsl
    cases hr : env.rtkitReply with
    | ok u =>
      cases u
      rw [make_realtime_success env st tid pid slice prio M B hc hM hM0 hB hB0 hgl
        hsl hr]
      exact ⟨⟨[], by simp [hu]⟩, fun hcon => absurd hcon (not_lt.mpr hsl)⟩
    | error e =>
      rw [make_realtime_denied env st tid pid slice prio M B e hc hM hM0 hB hB0 hgl
        hsl hr]
      exact ⟨⟨[st.rlimit], by simp [hu]⟩, fun hcon => absurd hcon (not_lt.mpr hsl)⟩

/-- Witness for C8: the kernel rejects the setrlimit64 call and the
function reports the limit-set failure. -/
theorem claim_C8_witness :
    (make_realtime benvSetrlimitFail st0 1 2 100 99).1 =
      Except.error "setrlimit failed" :=
  (claim_C8 benvSetrlimitFail st0 1 2 100 99 10 200000 rfl rfl (by norm_num) rfl
    (by norm_num) (by norm_num) (by decide)).2 (by decide)

/-- C1 (amended): if the resource limit was successfully raised and the
broker then denies promotion, `make_realtime` reports the promotion-denied
error and issues a rollback setrlimit64 with the limit read before the
attempt; provided the kernel accepts that rollback call — the source
discards its return value — the limit after the failed attempt equals the
limit observed immediately before the attempt. -/
theorem claim_C1 (env : BrokerEnv) (st : SysState) (tid pid slice prio : Nat)
    (M B : Int) (e : String)
    (hc : env.connectOk = true)
    (hM : env.getMaxRealtimePriority.bind item_as_i64 = Except.ok M) (hM0 : 0 ≤ M)
    (hB : env.getRTTimeUSecMax.bind item_as_i64 = Except.ok B) (hB0 : 0 ≤ B)
    (hgl : 0 ≤ env.getrlimitRet)
    (hsl : 0 ≤ env.setrlimitRet)
    (hr : env.rtkitReply = Except.error e)
    (hrb : 0 ≤ env.setrlimitRollbackRet) :
    make_realtime env st tid pid slice prio =
      (Except.error "could not set process as real-time.",
       { rlimit := st.rlimit,
         setrlimitCalls := st.setrlimitCalls ++
           [⟨min slice (i64_as_u64 B), i64_as_u64 B⟩, st.rlimit],
         rtkitCalls := st.rtkitCalls ++ [(tid, pid, min prio (i64_as_u32 M))] }) := by
  rw [make_realtime_denied env st tid pid slice prio M B e hc hM hM0 hB hB0 hgl hsl hr]
  simp [not_lt.mpr hrb]

/-- Witness for C1: a denied promotion with a successful rollback leaves
the limit it started with and reports the promotion-denied error. -/
theorem claim_C1_witness :
    (make_realtime benvDenied st0 1 2 100 99).2.rlimit = st0.rlimit ∧
    (make_realtime benvDenied st0 1 2 100 99).1 =
      Except.error "could not set process as real-time." := by
  have h := claim_C1 benvDenied st0 1 2 100 99 10 200000 "denied" rfl rfl (by norm_num)
    rfl (by norm_num) (by decide) (by decide) rfl (by decide)
  rw [h]
  exact ⟨rfl, rfl⟩

/-- Counterexample for C1 as stated: when the kernel rejects the rollback
setrlimit64 (whose return value the source ignores), the denied promotion
leaves the raised limit ⟨100, 200000⟩ in place instead of the
pre-attempt limit ⟨0, 1000000⟩. -/
theorem claim_C1_counterexample :
    (make_realtime benvDeniedNoRollback st0 1 2 100 99).1 =
      Except.error "could not set process as real-time." ∧
    st0.rlimit = ⟨0, 1000000⟩ ∧
    (make_realtime benvDeniedNoRollback st0 1 2 100 99).2.rlimit = ⟨100, 200000⟩ ∧
    (⟨100, 200000⟩ : Rlimit64) ≠ ⟨0, 1000000⟩ :=
  ⟨rfl, rfl, rfl, by decide⟩

/-- C9 (amended): the identity check guards only the current-thread
demotion path — there, a mismatch between the caller's pthread and the
handle's snapshot trips the fatal assertion before any scheduling
parameters are restored — while `demote_thread_from_real_time_internal`
performs no identity check and always issues the restore call through the
handle's process-local thread handle. -/
theorem claim_C9 :
    (∀ env h, env.pthread_self ≠ h.thread_info.pthread_id →
      demote_current_thread_from_real_time_internal env h =
        (DemoteOutcome.panicked, [])) ∧
    (∀ env h, (demote_thread_from_real_time_internal env h).2 =
      [⟨h.thread_info.pthread_id, h.thread_info.policy, h.thread_info.param⟩]) := by
  constructor
  · intro env h hne
    simp [demote_current_thread_from_real_time_internal, hne]
  · intro env h
    by_cases hr : env.setschedparamRet < 0 <;>
      simp [demote_thread_from_real_time_internal, hr]

/-- Witness for C9: a mismatching caller trips the assertion in the
current-thread demotion path before any restore call. -/
theorem claim_C9_witness :
    demote_current_thread_from_real_time_internal ⟨7, 0⟩ ⟨⟨1, 2, 5, 0, ⟨0⟩⟩⟩ =
      (DemoteOutcome.panicked, []) :=
  claim_C9.1 ⟨7, 0⟩ ⟨⟨1, 2, 5, 0, ⟨0⟩⟩⟩ (by norm_num)

/-- Counterexample for C9 as stated: a demotion call through
`demote_thread_from_real_time_internal` whose handle names pthread 5 while
the calling thread is 7 is neither rejected nor failed — it restores
through the local handle and reports success. -/
theorem claim_C9_counterexample :
    (7 : Nat) ≠ 5 ∧
    demote_thread_from_real_time_internal ⟨7, 0⟩ ⟨⟨1, 2, 5, 6, ⟨4⟩⟩⟩ =
      (DemoteOutcome.ok, [⟨5, 6, ⟨4⟩⟩]) := by
  exact ⟨by norm_num, rfl⟩

/-- C10 (amended): with sample rate 0 every call of
`promote_thread_to_real_time_internal`, and every call of
`promote_current_thread_to_real_time_internal` whose thread-info capture
succeeds, panics in the unguarded `buffer_frames * 1_000_000 /
audio_samplerate_hz` division instead of returning a `Result`; the
default-frames substitution itself does not divide by zero — its divisor
is the constant 20, and at sample rate 0 it just yields 0 frames. -/
theorem claim_C10 :
    (∀ env st ti bf,
      promote_thread_to_real_time_internal env st ti bf 0 =
        (PromoteResult.panicked, st)) ∧
    (∀ cenv env st bf, 0 ≤ cenv.getschedparamRet →
      promote_current_thread_to_real_time_internal cenv env st bf 0 =
        (PromoteResult.panicked, st)) ∧
    buffer_frames_value 0 0 = 0 := by
  refine ⟨fun env st ti bf => rfl, fun cenv env st bf h => ?_, rfl⟩
  simp [promote_current_thread_to_real_time_internal, get_current_thread_info_internal,
    not_lt.mpr h, promote_thread_to_real_time_internal]

/-- Witness for C10: a successful capture followed by sample rate 0 ends
in the division panic. -/
theorem claim_C10_witness :
    promote_current_thread_to_real_time_internal ⟨1, 2, 3, 0, 0, ⟨0⟩⟩ benvGranted st0
      128 0 = (PromoteResult.panicked, st0) :=
  claim_C10.2.1 ⟨1, 2, 3, 0, 0, ⟨0⟩⟩ benvGranted st0 128 (by norm_num)

/-- Counterexample for C10 as stated: a call of
`promote_current_thread_to_real_time_internal` with sample rate 0 whose
`pthread_getschedparam` fails returns the ordinary `Err(())` result before
any division is reached — not every such call hits the division error. -/
theorem claim_C10_counterexample :
    promote_current_thread_to_real_time_internal ⟨1, 2, 3, -1, 0, ⟨0⟩⟩ benvGranted st0
      128 0 = (PromoteResult.err, st0) ∧
    PromoteResult.err ≠ PromoteResult.panicked :=
  ⟨rfl, by decide⟩
